import Mathlib

/-!
# Verification of the tauri icon-generation scripts

A shallow embedding of the icon-generation utility: the padding and layout
arithmetic of the icon compositor, the squircle mask sampling, the gradient
variant derivation, the backup/restore directory operations, the input-icon
discovery, the Android background-XML rewrite, and the orchestrator control
flow of the two `main` variants.

Numeric conventions: the scripts compute with JavaScript doubles; the
embedding uses exact rationals (`ℚ`) for the padding arithmetic.  At every
constant the scripts actually use (`0.12`, `0.25`, `0.1`, `0.05`, `0.2237`)
the double product is not within one ulp of an integer, so `Math.floor` of
the double agrees with the floor of the exact rational; the embedding is
therefore faithful at those points.  The squircle sampling is embedded over
the real numbers, the idealisation of the double-precision trigonometry.
-/

/-! ## Configuration constants (CONFIG / top-level constants of the scripts) -/

/-- `TARGET_SIZE` / `CONFIG.constants.targetSize`: every composited canvas is
1024×1024. -/
def targetSize : ℤ := 1024

/-- `MACOS_PADDING_PERCENT = 0.12`: transparent outer margin of the macOS
floating tile, per side. -/
def macosPaddingPercent : ℚ := 0.12

/-- `CORNER_RADIUS_PERCENT = 0.2237` / `CONFIG.constants.macosCornerRadiusPercent`. -/
def cornerRadiusPercent : ℚ := 0.2237

/-! ## Padded icon layout (`createPaddedIcon`)

`createPaddedIcon` (src/scripts/icon-generation files and
src/scripts/generate-icons.ts) computes
`paddingSize = Math.floor(targetSize * paddingPercent)`,
`iconSize = targetSize - paddingSize * 2`, resizes the source icon to
`iconSize × iconSize` and composites it at `(left, top) = (paddingSize,
paddingSize)` on a transparent `targetSize × targetSize` canvas. -/

/-- Geometry produced by `createPaddedIcon`. -/
structure PaddedIconLayout where
  canvasSize : ℤ
  paddingSize : ℤ
  iconSize : ℤ
  offsetLeft : ℤ
  offsetTop : ℤ
  deriving Repr, DecidableEq

/-- Embedding of `createPaddedIcon` (geometry only; the pixel work is done by
the external `sharp` collaborator). -/
def createPaddedIcon (paddingPercent : ℚ) : PaddedIconLayout :=
  let paddingSize : ℤ := ⌊(targetSize : ℚ) * paddingPercent⌋
  let iconSize : ℤ := targetSize - paddingSize * 2
  { canvasSize := targetSize
    paddingSize := paddingSize
    iconSize := iconSize
    offsetLeft := paddingSize
    offsetTop := paddingSize }

/-! ## macOS icon layout (`createMacOSIcon`) -/

/-- The mask composited with `dest-in` blending onto the background tile. -/
inductive MaskSpec where
  | squircle (width height : ℤ)
  | roundedRectangle (width height radius : ℤ)
  deriving Repr, DecidableEq

/-- Geometry produced by `createMacOSIcon` of src/scripts/generate-icons.ts:
a `backgroundSize × backgroundSize` tile (solid `tileFill`, or transparent
when `tileFill = none`), clipped by `mask`, carrying the resized icon, then
composited at offset `outerMargin` onto a transparent
`canvasSize × canvasSize` canvas. -/
structure MacOSIconLayout where
  canvasSize : ℤ
  outerMargin : ℤ
  tileSize : ℤ
  cornerRadius : ℤ
  mask : MaskSpec
  tileFill : Option String
  iconPadding : ℤ
  iconSize : ℤ
  deriving Repr, DecidableEq

/-- Embedding of `createMacOSIcon` (src/scripts/generate-icons.ts lines
119-174): `paddingSize = Math.floor(TARGET_SIZE * MACOS_PADDING_PERCENT)`,
`backgroundSize = TARGET_SIZE - paddingSize * 2`,
`cornerRadius = Math.floor(backgroundSize * CORNER_RADIUS_PERCENT)`,
`iconPadding = Math.floor(backgroundSize * iconPaddingPercent)`,
`iconSize = backgroundSize - iconPadding * 2`. -/
def createMacOSIcon (backgroundColor : Option String) (useSquircle : Bool)
    (iconPaddingPercent : ℚ) : MacOSIconLayout :=
  let paddingSize : ℤ := ⌊(targetSize : ℚ) * macosPaddingPercent⌋
  let backgroundSize : ℤ := targetSize - paddingSize * 2
  let cornerRadius : ℤ := ⌊(backgroundSize : ℚ) * cornerRadiusPercent⌋
  let iconPadding : ℤ := ⌊(backgroundSize : ℚ) * iconPaddingPercent⌋
  let iconSize : ℤ := backgroundSize - iconPadding * 2
  { canvasSize := targetSize
    outerMargin := paddingSize
    tileSize := backgroundSize
    cornerRadius := cornerRadius
    mask := if useSquircle then MaskSpec.squircle backgroundSize backgroundSize
            else MaskSpec.roundedRectangle backgroundSize backgroundSize cornerRadius
    tileFill := backgroundColor
    iconPadding := iconPadding
    iconSize := iconSize }

/-! ## Squircle mask (`createSquircle`, src/scripts/icon-generation/generators/mask.ts)

The script builds an SVG path string from 361 sampled superellipse points
(`for (index = 0; index <= STEPS; index++)` with `STEPS = 360`), closes it
with `Z` and fills it `white`.  The embedding keeps the sampled points as a
list of real pairs together with the closed/fill attributes of the emitted
path; the trigonometry is the real-number idealisation of `Math.cos`,
`Math.sin`, `Math.sign` and `Math.pow`. -/

/-- `STEPS = 360`: number of equal angular steps of the superellipse sampling. -/
def squircleSteps : ℕ := 360

/-- `EXPONENT = 3.7`: the superellipse exponent (higher = more square-like). -/
noncomputable def squircleExponent : ℝ := 3.7

/-- One loop iteration of `createSquircle`: the point pushed for index `i`,
`(a + x, b + y)` with `a = width/2`, `b = height/2`,
`angle = (i / STEPS) * 2 * Math.PI`,
`x = a * Math.sign(cosT) * Math.pow(Math.abs(cosT), 2 / EXPONENT)` and
symmetrically for `y`. -/
noncomputable def squirclePoint (width height : ℝ) (i : ℕ) : ℝ × ℝ :=
  let a := width / 2
  let b := height / 2
  let angle := ((i : ℝ) / (squircleSteps : ℝ)) * 2 * Real.pi
  let cosT := Real.cos angle
  let sinT := Real.sin angle
  let x := a * Real.sign cosT * |cosT| ^ ((2 : ℝ) / squircleExponent)
  let y := b * Real.sign sinT * |sinT| ^ ((2 : ℝ) / squircleExponent)
  (a + x, b + y)

/-- The path emitted by `createSquircle`: the sampled polygon, the closing
`Z` command, and the solid fill colour. -/
structure SquirclePath where
  points : List (ℝ × ℝ)
  closed : Bool
  fill : String

/-- Embedding of `createSquircle`: the loop runs `index = 0, …, STEPS`
inclusive, so the polygon has `STEPS + 1 = 361` vertices; the SVG path is
closed (`Z`) and filled `"white"`. -/
noncomputable def createSquircle (width height : ℝ) : SquirclePath :=
  { points := (List.range (squircleSteps + 1)).map (squirclePoint width height)
    closed := true
    fill := "white" }

/-! ## Gradient variants (`getGradientVariants`, src/unnamed/part_004)

`colord(baseColor).brightness()` is the YIQ perceived brightness
`(r*299 + g*587 + b*114) / 1000` scaled to `0…1` and rounded to two decimal
places (`Math.round(100 * x) / 100`).  The lighten/darken/rotate calls are
delegated to the external `colord` collaborator; the embedding records which
adjustment is requested with which amount, which is exactly what the script
chooses per brightness band. -/

/-- An sRGB colour as the 0…255 channel triple `colord` parses from the hex
string. -/
structure RGB where
  r : ℕ
  g : ℕ
  b : ℕ
  deriving Repr, DecidableEq

/-- YIQ perceived brightness on the `0…1` scale, before rounding. -/
def yiqBrightness (c : RGB) : ℚ :=
  ((c.r : ℚ) * 299 + (c.g : ℚ) * 587 + (c.b : ℚ) * 114) / 1000 / 255

/-- `colord`'s `round(x, 2)`: `Math.round(100 * x) / 100`, rounding half
towards positive infinity as `Math.round` does. -/
def round2 (q : ℚ) : ℚ := (⌊q * 100 + 1 / 2⌋ : ℚ) / 100

/-- `colord(baseColor).brightness()`. -/
def colordBrightness (c : RGB) : ℚ := round2 (yiqBrightness c)

/-- A lightness adjustment requested from `colord`. -/
inductive LightnessAdjust where
  | lighten (amount : ℚ)
  | darken (amount : ℚ)
  deriving Repr, DecidableEq

/-- One derived gradient variant: a lightness adjustment followed by a hue
rotation (`.rotate(degrees)`) of the base colour. -/
structure GradientVariant where
  adjust : LightnessAdjust
  rotate : ℚ
  deriving Repr, DecidableEq

/-- Embedding of `getGradientVariants` (src/unnamed/part_004 lines 9-31):
the brightness-banded choice of the two variant adjustments. -/
def getGradientVariants (base : RGB) : GradientVariant × GradientVariant :=
  let brightness := colordBrightness base
  if brightness < 0.3 then
    (⟨LightnessAdjust.lighten 0.2, 20⟩, ⟨LightnessAdjust.lighten 0.08, -20⟩)
  else if 1 ≤ brightness then
    (⟨LightnessAdjust.darken 0.15, 20⟩, ⟨LightnessAdjust.darken 0.3, -20⟩)
  else
    (⟨LightnessAdjust.lighten 0.08, 20⟩, ⟨LightnessAdjust.darken 0.08, -20⟩)

/-! ## Directory backup/restore (src/scripts/icon-generation `file` module)

A platform icon directory is modelled as an association list from file name
to file content.  `fs.cpSync(src, dst, { recursive: true })` onto an
existing directory merges: every entry of `src` overwrites the equally named
entry of `dst`, entries only in `dst` survive, nothing is deleted. -/

/-- A directory: file names with their contents. -/
abbrev Dir := List (String × String)

/-- `fs.cpSync(src, dst, { recursive: true })` directory-merge semantics. -/
def cpSyncDir (src dst : Dir) : Dir :=
  src ++ dst.filter (fun e => (List.lookup e.1 src).isNone)

/-- Embedding of `restore(backupPath, originalPath)`: a missing backup is a
no-op, otherwise the backup is copied over the target with merge semantics. -/
def restoreDir (backup : Option Dir) (target : Dir) : Dir :=
  match backup with
  | none => target
  | some b => cpSyncDir b target

/-- Embedding of `backup(sourcePath, backupPath)`: a missing source is a
no-op (no backup is created), otherwise the directory is copied. -/
def backupDir (source : Option Dir) : Option Dir := source

/-- `CONFIG.files.macosIcns`. -/
def macosIcnsFile : String := "icon.macOS.icns"

/-- The snapshot taken by `backupWindowsIcons` (src/unnamed/part_001 lines
884-896) of an existing `src-tauri/icons` directory `d`: the whole directory
is copied, then, when `icon.macOS.icns` exists in the source directory, that
one file is `fs.rmSync`-deleted from the snapshot. -/
def windowsSnapshot (d : Dir) : Dir :=
  if (List.lookup macosIcnsFile d).isSome then
    (cpSyncDir d []).filter (fun e => e.1 != macosIcnsFile)
  else cpSyncDir d []

/-- Embedding of `backupWindowsIcons`: nothing happens when `src-tauri/icons`
does not exist; otherwise the lossy snapshot is stored. -/
def backupWindowsIcons (tauriIcons : Option Dir) : Option Dir :=
  match tauriIcons with
  | none => none
  | some d => some (windowsSnapshot d)

/-- Embedding of `restoreWindowsIcons` (src/unnamed/part_001 lines 899-904):
restore the snapshot over `src-tauri/icons` when it exists. -/
def restoreWindowsIcons (backup : Option Dir) (tauriIcons : Dir) : Dir :=
  restoreDir backup tauriIcons

/-- The backed-up directory of the round-trip scenario: files `a`, `b`, `c`. -/
def backupScenario : Dir := [("a", "A"), ("b", "B"), ("c", "C")]

/-- The target directory at restore time: `a` was modified meanwhile and an
extra file `d` appeared. -/
def targetScenario : Dir := [("a", "A-modified"), ("d", "D")]

/-! ## Input icon discovery (`findInputIcon`) -/

/-- The candidate paths `path.join(ASSETS_DIR, candidate)` in priority
order: `icon.svg`, `icon.png`, `icon.jpg`, `icon.jpeg`. -/
def iconCandidates : List String :=
  ["assets/icon.svg", "assets/icon.png", "assets/icon.jpg", "assets/icon.jpeg"]

/-- The candidate loop of `findInputIcon`: first candidate that exists. -/
def findFirstIcon (fs : List String) : List String → Option String
  | [] => none
  | c :: rest => if fs.contains c then some c else findFirstIcon fs rest

/-- Embedding of `findInputIcon` (src/scripts/icon-generation `file` module
and src/scripts/generate-icons.ts lines 270-283) over the set `fs` of
existing paths: returns the first existing candidate, throws otherwise. -/
def findInputIcon (fs : List String) : Except String String :=
  match findFirstIcon fs iconCandidates with
  | some p => Except.ok p
  | none => Except.error "No input icon found in assets"

/-! ## Android background colour rewrite (`updateBackgroundColor`)

`updateBackgroundColor` (src/unnamed/part_002 lines 86-106, and
`updateAndroidBackgroundColor` of src/scripts/generate-icons.ts) runs
`xmlContent.replace(/(<color name="ic_launcher_background">).*?(<\/color>)/,
"$1" + hexColor + "$2")` and writes the result back.  The embedding models
that non-global, lazy, dot-excludes-newline regex replacement over the file
content as a list of characters: the first position where the opening tag is
followed on the same line by the closing tag is rewritten, everything else
is kept byte for byte, and a match-free content is returned unchanged. -/

/-- The literal opening tag of the matched colour element. -/
def openTagL : List Char := "<color name=\"ic_launcher_background\">".toList

/-- The literal closing tag of the matched colour element. -/
def closeTagL : List Char := "</color>".toList

/-- The newline character, which `.` of the regex does not match. -/
def nlChar : Char := Char.ofNat 10

/-- Does `pat` occur at the head of `s`? -/
def startsWithL : List Char → List Char → Bool
  | [], _ => true
  | _ :: _, [] => false
  | p :: ps, c :: cs => p == c && startsWithL ps cs

/-- Split `s` at the first occurrence of `pat`: returns the part before the
occurrence and the part after it (the lazy search of the regex engine). -/
def splitFirstL (pat : List Char) : List Char → Option (List Char × List Char)
  | [] => if startsWithL pat [] then some ([], []) else none
  | c :: rest =>
    if startsWithL pat (c :: rest) then some ([], (c :: rest).drop pat.length)
    else
      match splitFirstL pat rest with
      | some (pre, post) => some (c :: pre, post)
      | none => none

/-- Does the regex match starting exactly at the head of `s`?  When it does,
returns the element text (between the tags) and the remainder after the
closing tag.  The lazy `.*?` accepts the shortest text reaching `</color>`,
and fails when a newline intervenes because `.` does not match newlines. -/
def colorHeadMatch (s : List Char) : Option (List Char × List Char) :=
  if startsWithL openTagL s then
    match splitFirstL closeTagL (s.drop openTagL.length) with
    | some mp => if mp.1.contains nlChar then none else some mp
    | none => none
  else none

/-- The leftmost regex match in `s`: the prefix before the match, the element
text, and the remainder after the closing tag.  The engine advances the
start position one character at a time, exactly like `String.prototype.replace`
with a non-global regex. -/
def findColorElement : List Char → Option (List Char × List Char × List Char)
  | [] => none
  | c :: rest =>
    match colorHeadMatch (c :: rest) with
    | some (mid, post) => some ([], mid, post)
    | none =>
      match findColorElement rest with
      | some r => some (c :: r.1, r.2.1, r.2.2)
      | none => none

/-- The replacement `"$1" + hexColor + "$2"` applied to the first match, or
the unchanged content when the regex does not match. -/
def replaceColor (hexColor : List Char) (s : List Char) : List Char :=
  match findColorElement s with
  | none => s
  | some (pre, _mid, post) => pre ++ openTagL ++ hexColor ++ closeTagL ++ post

/-- Whether the regex matches starting at position `i` of `s` (used to state
that the rewritten element is the first one). -/
def colorMatchAt (s : List Char) (i : ℕ) : Bool :=
  (colorHeadMatch (s.drop i)).isSome

/-- What `updateBackgroundColor` does to `values/ic_launcher_background.xml`. -/
inductive WriteResult where
  | noWrite
  | wrote (content : List Char)
  deriving Repr, DecidableEq

/-- Embedding of `updateBackgroundColor`: an early return (no write at all)
when the XML file does not exist, otherwise the file is rewritten with the
regex-replaced content. -/
def updateBackgroundColor (xmlExists : Bool) (xmlContent : List Char)
    (hexColor : List Char) : WriteResult :=
  if xmlExists then WriteResult.wrote (replaceColor hexColor xmlContent)
  else WriteResult.noWrite

/-! ## Background canvas selection (`createBackgroundCanvas`,
src/scripts/icon-generation/platform-handlers file, and the canvas choice of
`createIconWithBackground`, src/unnamed/part_003 lines 86-96) -/

/-- A background colour: the hex string handed to `sharp`, or the literal
`{ alpha: 0, b: 0, g: 0, r: 0 }` default. -/
inductive ColorSpec where
  | hex (s : String)
  | rgba (r g b a : ℕ)
  deriving Repr, DecidableEq

/-- The default `{ alpha: 0, b: 0, g: 0, r: 0 }`: fully transparent. -/
def transparentColor : ColorSpec := ColorSpec.rgba 0 0 0 0

/-- A canvas as handed to the compositor: a solid-colour canvas or a
rasterised gradient over a base colour. -/
inductive CanvasSpec where
  | solid (size : ℤ) (background : ColorSpec)
  | gradient (size : ℤ) (base : String)
  deriving Repr, DecidableEq

/-- JavaScript truthiness of the optional `backgroundColor` string. -/
def strTruthy : Option String → Bool
  | none => false
  | some s => !s.isEmpty

/-- Embedding of `createCanvas(size, background)`: a solid canvas whose fill
is `background ?? { alpha: 0, b: 0, g: 0, r: 0 }`. -/
def createCanvas (size : ℤ) (background : Option String) : CanvasSpec :=
  CanvasSpec.solid size
    (match background with
     | some s => ColorSpec.hex s
     | none => transparentColor)

/-- Embedding of `createBackgroundCanvas(size, backgroundColor, useGradient)`:
the gradient is rasterised only when `useGradient && backgroundColor` is
truthy, otherwise the plain canvas is used. -/
def createBackgroundCanvas (size : ℤ) (backgroundColor : Option String)
    (useGradient : Bool) : CanvasSpec :=
  if useGradient && strTruthy backgroundColor then
    CanvasSpec.gradient size (backgroundColor.getD "")
  else createCanvas size backgroundColor

/-- The canvas chosen by `createIconWithBackground` (src/unnamed/part_003
lines 86-96): `options.useGradient` is an optional boolean, and the gradient
branch is taken only when `options.useGradient && options.backgroundColor`
is truthy. -/
def iconWithBackgroundCanvas (backgroundColor : Option String)
    (useGradient : Option Bool) : CanvasSpec :=
  if useGradient.getD false && strTruthy backgroundColor then
    CanvasSpec.gradient targetSize (backgroundColor.getD "")
  else createCanvas targetSize backgroundColor

/-! ## Orchestrator control flow

Two `main` variants are embedded.

`mainGI` is `main` of src/scripts/generate-icons.ts: the `try` body sets up
`assets/` and `assets/.temp-icons/`, resolves the input icon, prompts, then
per platform writes a temporary 1024×1024 PNG and invokes the external CLI.
The `catch` branch calls `process.exit(1)`, which in Node terminates the
process at once, so the `finally` block does not run on the failure path;
on the success path the `finally` block runs but only logs "Cleaning up
temporary files..." — the `fs.rmSync(TEMP_DIR, { recursive: true })` call
is commented out in the source, so no path removes the temp directory.

`mainOra` is `main` of the src/unnamed/part_001 class-based variant (lines
744-832): the same skeleton with a gradient prompt, and its `finally` block
does execute `fs.rmSync(CONFIG.dirs.temp, ...)` — but again only on the
success path, because the `catch` branch exits via `process.exit(1)`.

The file system is the list of existing paths.  Directory contents touched
by the Android/iOS backup-restore steps are tracked only as the backup root
paths (no claim settled on these models depends on their contents), prompt
outcomes and CLI success come from the environment, and `cliOk = false`
means the first external-CLI invocation throws. -/

/-- `ASSETS_DIR`. -/
def assetsDir : String := "assets"

/-- `TEMP_DIR = path.join(ASSETS_DIR, ".temp-icons")`. -/
def tempDir : String := "assets/.temp-icons"

/-- `TEMP_ANDROID_ICON`. -/
def tempAndroidIcon : String := "assets/.temp-icons/icon-android-temp.png"

/-- `TEMP_MACOS_ICON`. -/
def tempMacOSIcon : String := "assets/.temp-icons/icon-macOS-temp.png"

/-- `TEMP_IOS_ICON`. -/
def tempIOSIcon : String := "assets/.temp-icons/icon-ios-temp.png"

/-- `TEMP_WINDOWS_ICON`. -/
def tempWindowsIcon : String := "assets/.temp-icons/icon-windows-temp.png"

/-- `TEMP_ANDROID_BACKUP`. -/
def tempAndroidBackup : String := "assets/.temp-icons/icon-android-backup"

/-- `TEMP_IOS_BACKUP`. -/
def tempIOSBackup : String := "assets/.temp-icons/icon-ios-backup"

/-- `GENERATED_ICNS`. -/
def generatedIcns : String := "src-tauri/icons/icon.icns"

/-- `MACOS_ICNS`. -/
def macosIcns : String := "src-tauri/icons/icon.macOS.icns"

/-- `IOS_ICONS_DIR`. -/
def iosIconsDir : String := "src-tauri/gen/apple/Assets.xcassets/AppIcon.appiconset"

/-- part_001 `FileManager.getTempPath("icon-android-temp.png")`. -/
def oraTempAndroidIcon : String := "assets/.temp-icons/icon-android-temp.png"

/-- part_001 `FileManager.getTempPath("icon-macos-temp.png")`. -/
def oraTempMacOSIcon : String := "assets/.temp-icons/icon-macos-temp.png"

/-- part_001 `FileManager.getTempPath("icon-ios-temp.png")`. -/
def oraTempIOSIcon : String := "assets/.temp-icons/icon-ios-temp.png"

/-- part_001 `FileManager.getTempPath("icon-windows-temp.png")`. -/
def oraTempWindowsIcon : String := "assets/.temp-icons/icon-windows-temp.png"

/-- part_001 `FileManager.getBackupPath("android-adaptive")`. -/
def oraAndroidBackup : String := "assets/.temp-icons/android-adaptive"

/-- part_001 `FileManager.getBackupPath("ios-icons")`. -/
def oraIOSBackup : String := "assets/.temp-icons/ios-icons"

/-- The run environment: the initially existing paths, the prompt outcomes
(`none` = the prompt threw, e.g. user abort), whether the external CLI
invocations succeed, and whether the CLI leaves `icon.icns` behind. -/
structure Env where
  initialFs : List String
  promptBackground : Option String
  promptGradient : Option Bool
  promptShape : Option Bool
  cliOk : Bool
  cliProducesIcns : Bool
  deriving Repr, DecidableEq

/-- The observable outcome of a run: the final file system, the temporary
PNG writes `(path, canvas edge length)` in order, whether the cleanup step
of the `finally` block was reached, and the process exit status. -/
structure RunState where
  fs : List String
  writes : List (String × ℤ)
  cleanupLogged : Bool
  exitCode : ℕ
  deriving Repr, DecidableEq

/-- `fs.mkdirSync`-style creation: add a path if absent. -/
def fsAdd (fs : List String) (p : String) : List String :=
  if fs.contains p then fs else p :: fs

/-- `fs.renameSync`/`fs.rmSync` of a single path. -/
def fsRemove (fs : List String) (p : String) : List String :=
  fs.filter (fun q => q != p)

/-- `fs.rmSync(p, { recursive: true })`: the path and everything under it. -/
def fsRemoveTree (fs : List String) (p : String) : List String :=
  fs.filter (fun q => !(q == p || startsWithL (p ++ "/").toList q.toList))

/-- The directory setup of both `main` variants: `ensureDir(ASSETS_DIR)`
followed by `ensureDir(TEMP_DIR)`. -/
def runSetup (env : Env) : List String :=
  fsAdd (fsAdd env.initialFs assetsDir) tempDir

/-- The platform loop of `main` in src/scripts/generate-icons.ts, reached
after the prompts succeeded: per platform write the temporary PNG, run the
external CLI, and perform the backup/move steps. -/
def runGenerate (fs1 : List String) (cliOk cliProducesIcns : Bool) : RunState × Bool :=
  let fs2 := fsAdd fs1 tempAndroidIcon
  let w1 : List (String × ℤ) := [(tempAndroidIcon, targetSize)]
  if cliOk then
    let fs3 := fsAdd fs2 tempAndroidBackup
    let fs4 := fsAdd fs3 tempMacOSIcon
    let w2 := w1 ++ [(tempMacOSIcon, targetSize)]
    let fs5 := if cliProducesIcns then fsAdd fs4 generatedIcns else fs4
    let fs6 :=
      if fs5.contains generatedIcns then fsAdd (fsRemove fs5 generatedIcns) macosIcns
      else fs5
    let fs7 := fsAdd fs6 tempIOSIcon
    let w3 := w2 ++ [(tempIOSIcon, targetSize)]
    let fs8 := if fs7.contains iosIconsDir then fsAdd fs7 tempIOSBackup else fs7
    let fs9 := fsAdd fs8 tempWindowsIcon
    let w4 := w3 ++ [(tempWindowsIcon, targetSize)]
    let fs10 := if fs9.contains tempIOSBackup then fsAdd fs9 iosIconsDir else fs9
    ({ fs := fs10, writes := w4, cleanupLogged := false, exitCode := 0 }, true)
  else ({ fs := fs2, writes := w1, cleanupLogged := false, exitCode := 0 }, false)

/-- The `try` body of `main` in src/scripts/generate-icons.ts, returning the
state reached and whether the body completed without throwing. -/
def runBody (env : Env) : RunState × Bool :=
  let fs1 := runSetup env
  match findInputIcon fs1 with
  | Except.error _ =>
      ({ fs := fs1, writes := [], cleanupLogged := false, exitCode := 0 }, false)
  | Except.ok _ =>
    match env.promptBackground with
    | none => ({ fs := fs1, writes := [], cleanupLogged := false, exitCode := 0 }, false)
    | some _ =>
      match env.promptShape with
      | none => ({ fs := fs1, writes := [], cleanupLogged := false, exitCode := 0 }, false)
      | some _ => runGenerate fs1 env.cliOk env.cliProducesIcns

/-- Embedding of `main` of src/scripts/generate-icons.ts.  On success the
`finally` block runs and logs the cleanup message, but the `fs.rmSync` that
would delete `assets/.temp-icons` is commented out; on failure the `catch`
branch calls `process.exit(1)`, so the `finally` block never runs. -/
def mainGI (env : Env) : RunState :=
  match runBody env with
  | (s, true) => { s with cleanupLogged := true, exitCode := 0 }
  | (s, false) => { s with exitCode := 1 }

/-- The platform loop of `main` in src/unnamed/part_001, reached after the
three prompts succeeded.  The macOS step of this variant writes the
temporary macOS PNG and then directly `renameSync`-moves it to
`src-tauri/icons/icon.macOS.icns`. -/
def runGenerateOra (fs1 : List String) (cliOk : Bool) : RunState × Bool :=
  let fs2 := fsAdd fs1 oraTempAndroidIcon
  let w1 : List (String × ℤ) := [(oraTempAndroidIcon, targetSize)]
  if cliOk then
    let fs3 := fsAdd fs2 oraAndroidBackup
    let fs4 := fsAdd fs3 oraTempMacOSIcon
    let w2 := w1 ++ [(oraTempMacOSIcon, targetSize)]
    let fs5 :=
      if fs4.contains oraTempMacOSIcon then
        fsAdd (fsRemove fs4 oraTempMacOSIcon) macosIcns
      else fs4
    let fs6 := fsAdd fs5 oraTempIOSIcon
    let w3 := w2 ++ [(oraTempIOSIcon, targetSize)]
    let fs7 := if fs6.contains iosIconsDir then fsAdd fs6 oraIOSBackup else fs6
    let fs8 := fsAdd fs7 oraTempWindowsIcon
    let w4 := w3 ++ [(oraTempWindowsIcon, targetSize)]
    ({ fs := fs8, writes := w4, cleanupLogged := false, exitCode := 0 }, true)
  else ({ fs := fs2, writes := w1, cleanupLogged := false, exitCode := 0 }, false)

/-- The `try` body of `main` in src/unnamed/part_001 (lines 747-816). -/
def runBodyOra (env : Env) : RunState × Bool :=
  let fs1 := runSetup env
  match findInputIcon fs1 with
  | Except.error _ =>
      ({ fs := fs1, writes := [], cleanupLogged := false, exitCode := 0 }, false)
  | Except.ok _ =>
    match env.promptBackground with
    | none => ({ fs := fs1, writes := [], cleanupLogged := false, exitCode := 0 }, false)
    | some _ =>
      match env.promptGradient with
      | none => ({ fs := fs1, writes := [], cleanupLogged := false, exitCode := 0 }, false)
      | some _ =>
        match env.promptShape with
        | none => ({ fs := fs1, writes := [], cleanupLogged := false, exitCode := 0 }, false)
        | some _ => runGenerateOra fs1 env.cliOk

/-- Embedding of `main` of src/unnamed/part_001.  On success the `finally`
block removes the temp directory (`if (fs.existsSync(CONFIG.dirs.temp))
fs.rmSync(..., { recursive: true })`); on failure `process.exit(1)` inside
the `catch` branch terminates the process before the `finally` block. -/
def mainOra (env : Env) : RunState :=
  match runBodyOra env with
  | (s, true) =>
      { s with
        cleanupLogged := true
        fs := if s.fs.contains tempDir then fsRemoveTree s.fs tempDir else s.fs
        exitCode := 0 }
  | (s, false) => { s with exitCode := 1 }

/-- Environment of the end-to-end failure scenario: empty `assets/`
directory, every later step would succeed. -/
def envNoIcon : Env :=
  { initialFs := []
    promptBackground := some "#171717"
    promptGradient := some false
    promptShape := some true
    cliOk := true
    cliProducesIcns := true }

/-- Environment of the end-to-end macOS scenario: `assets/icon.png` exists,
the user picks the dark background `#171717`, no gradient, squircle, and
the external CLI succeeds. -/
def envMacSquircle : Env :=
  { initialFs := ["assets/icon.png"]
    promptBackground := some "#171717"
    promptGradient := some false
    promptShape := some true
    cliOk := true
    cliProducesIcns := true }

/-- A one-element `values/ic_launcher_background.xml` content used as a
concrete evaluation input. -/
def androidXmlSample : List Char :=
  "<color name=\"ic_launcher_background\">#FFFFFF</color>".toList

/-! ## Helper lemmas -/

theorem lookup_append_dir (k : String) (src t : Dir) :
    List.lookup k (src ++ t) =
      if (List.lookup k src).isSome then List.lookup k src else List.lookup k t := by
  induction src with
  | nil => simp
  | cons e rest ih =>
    rcases e with ⟨a, b⟩
    by_cases hk : k == a
    · simp [List.lookup, hk]
    · simp only [List.cons_append, List.lookup, hk]
      simpa [hk] using ih

theorem lookup_filter_keep (k : String) (dst : Dir) (p : String × String → Bool)
    (hp : ∀ v, p (k, v) = true) :
    List.lookup k (dst.filter p) = List.lookup k dst := by
  induction dst with
  | nil => simp
  | cons e rest ih =>
    rcases e with ⟨a, b⟩
    by_cases hak : k == a
    · have ha : a = k := (beq_iff_eq.mp hak).symm
      subst ha
      simp [List.filter_cons, hp b, List.lookup, ih]
    · by_cases hpe : p (a, b) = true
      · simp [List.filter_cons, hpe, List.lookup, hak, ih]
      · simp [List.filter_cons, hpe, List.lookup, hak, ih]

theorem lookup_filter_ne_none (k : String) (l : Dir) :
    List.lookup k (l.filter (fun e => e.1 != k)) = none := by
  induction l with
  | nil => simp
  | cons e rest ih =>
    rcases e with ⟨a, b⟩
    by_cases hak : a = k
    · subst hak
      simp [List.filter_cons, ih]
    · have hne : (a != k) = true := by simp [hak]
      have hka : (k == a) = false := by
        simp [beq_eq_false_iff_ne]
        exact fun h => hak h.symm
      simp [List.filter_cons, hne, List.lookup, hka, ih]

theorem lookup_cpSyncDir (k : String) (src dst : Dir) :
    List.lookup k (cpSyncDir src dst) =
      if (List.lookup k src).isSome then List.lookup k src else List.lookup k dst := by
  unfold cpSyncDir
  rw [lookup_append_dir]
  cases h : List.lookup k src with
  | some v => simp [h]
  | none =>
    simp only [h, Option.isSome_none, Bool.false_eq_true, if_false]
    exact lookup_filter_keep k dst _ (fun v => by simp [h])

theorem lookup_windowsSnapshot (d : Dir) (g : String) :
    List.lookup g (windowsSnapshot d) =
      if g = macosIcnsFile then none else List.lookup g d := by
  unfold windowsSnapshot
  cases hm : (List.lookup macosIcnsFile d).isSome with
  | true =>
    rw [if_pos (rfl : (true : Bool) = true)]
    by_cases hg : g = macosIcnsFile
    · rw [if_pos hg, hg]
      exact lookup_filter_ne_none macosIcnsFile (cpSyncDir d [])
    · rw [if_neg hg]
      have hkeep := lookup_filter_keep g (cpSyncDir d [])
        (fun e => e.1 != macosIcnsFile)
        (fun v => by
          show (g != macosIcnsFile) = true
          simpa using hg)
      rw [hkeep, lookup_cpSyncDir]
      cases h : List.lookup g d with
      | some v => simp [h]
      | none => simp [h]
  | false =>
    simp only [Bool.false_eq_true, if_false]
    rw [lookup_cpSyncDir]
    by_cases hg : g = macosIcnsFile
    · rw [if_pos hg, hg]
      cases h : List.lookup macosIcnsFile d with
      | some v => rw [h] at hm; simp at hm
      | none => simp [h]
    · rw [if_neg hg]
      cases h : List.lookup g d with
      | some v => simp [h]
      | none => simp [h]

theorem not_mem_of_contains_false {l : List String} {a : String}
    (h : l.contains a = false) : a ∉ l := by
  intro hm
  have h2 : l.elem a = false := h
  rw [List.elem_eq_true_of_mem hm] at h2
  cases h2

theorem mem_of_contains_true {l : List String} {a : String}
    (h : l.contains a = true) : a ∈ l :=
  List.mem_of_elem_eq_true h

theorem mem_fsAdd_iff (fs : List String) (p q : String) :
    q ∈ fsAdd fs p ↔ (q ∈ fs ∨ q = p) := by
  unfold fsAdd
  by_cases h : fs.contains p
  · rw [if_pos h]
    constructor
    · exact Or.inl
    · rintro (hq | rfl)
      · exact hq
      · exact mem_of_contains_true h
  · rw [if_neg h]
    simp [or_comm]

theorem mem_fsAdd_self (fs : List String) (p : String) : p ∈ fsAdd fs p := by
  rw [mem_fsAdd_iff]
  exact Or.inr rfl

theorem mem_fsAdd_of_mem {fs : List String} {q : String} (h : q ∈ fs) (p : String) :
    q ∈ fsAdd fs p := by
  rw [mem_fsAdd_iff]
  exact Or.inl h

theorem mem_fsRemove_of_ne {fs : List String} {q p : String} (h : q ∈ fs)
    (hne : q ≠ p) : q ∈ fsRemove fs p := by
  unfold fsRemove
  rw [List.mem_filter]
  exact ⟨h, by simpa using hne⟩

theorem mem_ite_fsAdd {q : String} {c : Prop} [Decidable c] {f : List String}
    (h : q ∈ f) (p : String) : q ∈ (if c then fsAdd f p else f) := by
  split
  · exact mem_fsAdd_of_mem h p
  · exact h

theorem mem_ite_move {q p r : String} {c : Prop} [Decidable c] {f : List String}
    (h : q ∈ f) (hne : q ≠ p) : q ∈ (if c then fsAdd (fsRemove f p) r else f) := by
  split
  · exact mem_fsAdd_of_mem (mem_fsRemove_of_ne h hne) r
  · exact h

theorem tempDir_mem_runGenerate (fs1 : List String) (h : tempDir ∈ fs1)
    (a b : Bool) : tempDir ∈ (runGenerate fs1 a b).1.fs := by
  cases a with
  | false => exact mem_fsAdd_of_mem h tempAndroidIcon
  | true =>
    exact
      mem_ite_fsAdd
        (mem_fsAdd_of_mem
          (mem_ite_fsAdd
            (mem_fsAdd_of_mem
              (mem_ite_move
                (mem_ite_fsAdd
                  (mem_fsAdd_of_mem
                    (mem_fsAdd_of_mem (mem_fsAdd_of_mem h tempAndroidIcon)
                      tempAndroidBackup)
                    tempMacOSIcon)
                  generatedIcns)
                (by decide))
              tempIOSIcon)
            tempIOSBackup)
          tempWindowsIcon)
        iosIconsDir

theorem tempDir_mem_runBody (env : Env) : tempDir ∈ (runBody env).1.fs := by
  have h1 : tempDir ∈ runSetup env := mem_fsAdd_self _ _
  simp only [runBody]
  repeat' split
  all_goals
    first
    | exact h1
    | exact tempDir_mem_runGenerate _ h1 _ _

theorem startsWithL_iff (p : List Char) : ∀ s : List Char,
    startsWithL p s = true ↔ ∃ t, s = p ++ t := by
  induction p with
  | nil => intro s; simp [startsWithL]
  | cons a ps ih =>
    intro s
    cases s with
    | nil =>
      simp only [startsWithL]
      constructor
      · intro h; cases h
      · rintro ⟨t, ht⟩; cases ht
    | cons c cs =>
      show (a == c && startsWithL ps cs) = true ↔ _
      rw [Bool.and_eq_true, beq_iff_eq, ih cs]
      constructor
      · rintro ⟨rfl, t, rfl⟩
        exact ⟨t, rfl⟩
      · rintro ⟨t, ht⟩
        rw [List.cons_append] at ht
        injection ht with h1 h2
        exact ⟨h1.symm, t, h2⟩

theorem splitFirstL_sound (pat : List Char) : ∀ (s pre post : List Char),
    splitFirstL pat s = some (pre, post) → s = pre ++ pat ++ post := by
  intro s
  induction s with
  | nil =>
    intro pre post h
    unfold splitFirstL at h
    by_cases hs : startsWithL pat [] = true
    · rw [if_pos hs] at h
      obtain ⟨t, ht⟩ := (startsWithL_iff pat []).mp hs
      have hpat : pat = [] := by
        cases List.append_eq_nil.mp ht.symm with
        | intro h1 h2 => exact h1
      injection h with h'
      injection h' with h1 h2
      subst h1; subst h2
      simp [hpat]
    · rw [if_neg hs] at h
      cases h
  | cons c rest ih =>
    intro pre post h
    unfold splitFirstL at h
    by_cases hs : startsWithL pat (c :: rest) = true
    · rw [if_pos hs] at h
      obtain ⟨t, ht⟩ := (startsWithL_iff pat (c :: rest)).mp hs
      injection h with h'
      injection h' with h1 h2
      subst h1
      have hdrop : (c :: rest).drop pat.length = t := by
        rw [ht]
        exact List.drop_left pat t
      rw [hdrop] at h2
      subst h2
      simpa using ht
    · rw [if_neg hs] at h
      cases hsp : splitFirstL pat rest with
      | some pr =>
        rw [hsp] at h
        injection h with h'
        injection h' with h1 h2
        subst h2
        have := ih pr.1 pr.2 (by rw [hsp])
        rw [← h1]
        simp [this]
      | none => rw [hsp] at h; cases h

theorem splitFirstL_first (pat : List Char) : ∀ (s pre post : List Char),
    splitFirstL pat s = some (pre, post) →
    ∀ i < pre.length, startsWithL pat (s.drop i) = false := by
  intro s
  induction s with
  | nil =>
    intro pre post h i hi
    unfold splitFirstL at h
    by_cases hs : startsWithL pat [] = true
    · rw [if_pos hs] at h
      injection h with h'
      injection h' with h1 h2
      subst h1
      simp at hi
    · rw [if_neg hs] at h
      cases h
  | cons c rest ih =>
    intro pre post h i hi
    unfold splitFirstL at h
    by_cases hs : startsWithL pat (c :: rest) = true
    · rw [if_pos hs] at h
      injection h with h'
      injection h' with h1 h2
      subst h1
      simp at hi
    · rw [if_neg hs] at h
      cases hsp : splitFirstL pat rest with
      | some pr =>
        rw [hsp] at h
        injection h with h'
        injection h' with h1 h2
        cases i with
        | zero =>
          simpa using Bool.not_eq_true _ ▸ (by simpa using hs)
        | succ j =>
          have hj : j < pr.1.length := by
            rw [← h1] at hi
            simpa using hi
          exact ih pr.1 pr.2 (by rw [hsp]) j hj
      | none => rw [hsp] at h; cases h

theorem colorHeadMatch_sound (s mid post : List Char)
    (h : colorHeadMatch s = some (mid, post)) :
    s = openTagL ++ mid ++ closeTagL ++ post ∧ mid.contains nlChar = false := by
  unfold colorHeadMatch at h
  by_cases hs : startsWithL openTagL s = true
  · rw [if_pos hs] at h
    cases hsp : splitFirstL closeTagL (s.drop openTagL.length) with
    | some pr =>
      rw [hsp] at h
      replace h : (if pr.1.contains nlChar = true then none else some pr)
          = some (mid, post) := h
      by_cases hnl : pr.1.contains nlChar = true
      · rw [if_pos hnl] at h
        cases h
      · rw [if_neg hnl] at h
        injection h with h'
        have hmid : pr.1 = mid := by rw [h']
        have hpost : pr.2 = post := by rw [h']
        obtain ⟨t, ht⟩ := (startsWithL_iff openTagL s).mp hs
        have hdrop : s.drop openTagL.length = t := by
          rw [ht]
          exact List.drop_left openTagL t
        have hsplit := splitFirstL_sound closeTagL (s.drop openTagL.length) pr.1 pr.2
          (by rw [hsp])
        rw [hdrop] at hsplit
        constructor
        · rw [ht, hsplit, hmid, hpost]
          simp
        · rw [← hmid]
          exact Bool.not_eq_true _ ▸ hnl
    | none => rw [hsp] at h; cases h
  · rw [if_neg hs] at h
    cases h

theorem findColorElement_sound : ∀ (s pre mid post : List Char),
    findColorElement s = some (pre, mid, post) →
    s = pre ++ openTagL ++ mid ++ closeTagL ++ post ∧
    colorMatchAt s pre.length = true ∧
    ∀ i < pre.length, colorMatchAt s i = false := by
  intro s
  induction s with
  | nil => intro pre mid post h; cases h
  | cons c rest ih =>
    intro pre mid post h
    unfold findColorElement at h
    cases hh : colorHeadMatch (c :: rest) with
    | some pr =>
      rw [hh] at h
      injection h with h'
      injection h' with h1 h2
      injection h2 with h2a h2b
      subst h1
      obtain ⟨hsound, hnl⟩ := colorHeadMatch_sound (c :: rest) pr.1 pr.2 (by rw [hh])
      refine ⟨?_, ?_, ?_⟩
      · rw [h2a, h2b] at hsound
        simpa using hsound
      · show (colorHeadMatch ((c :: rest).drop 0)).isSome = true
        rw [List.drop_zero, hh]
        rfl
      · intro i hi
        simp at hi
    | none =>
      rw [hh] at h
      cases hfe : findColorElement rest with
      | some r =>
        rw [hfe] at h
        injection h with h'
        injection h' with h1 h2
        injection h2 with h2a h2b
        obtain ⟨ihs, ihm, ihf⟩ := ih r.1 r.2.1 r.2.2 (by rw [hfe])
        refine ⟨?_, ?_, ?_⟩
        · rw [← h1, ← h2a, ← h2b, ihs]
          simp
        · rw [← h1]
          show (colorHeadMatch ((c :: rest).drop (r.1.length + 1))).isSome = true
          rw [List.drop_succ_cons]
          exact ihm
        · intro i hi
          cases i with
          | zero =>
            show (colorHeadMatch ((c :: rest).drop 0)).isSome = false
            rw [List.drop_zero, hh]
            rfl
          | succ j =>
            have hj : j < r.1.length := by
              rw [← h1] at hi
              simpa using hi
            show (colorHeadMatch ((c :: rest).drop (j + 1))).isSome = false
            rw [List.drop_succ_cons]
            exact ihf j hj
      | none => rw [hfe] at h; cases h

/-! ## Claim theorems -/

/-- Claim C1: the spec requires that every run of the orchestrator `main`
removes `assets/.temp-icons` on every exit path.  The code does not: in
src/scripts/generate-icons.ts the `finally` block only logs the cleanup
message (the `fs.rmSync(TEMP_DIR, ...)` is commented out), so the temp
directory survives every run, and on the failure path `process.exit(1)`
inside `catch` prevents the `finally` block from running at all; in the
src/unnamed/part_001 variant the success path does remove the directory,
but its failure path also exits through `process.exit(1)` before the
`finally` cleanup.  This theorem evaluates both `main` embeddings: the temp
directory is in the final file system of every `mainGI` run, in particular
of the failing no-input-icon run (which exits 1), while `mainOra` removes
it only on the success path. -/
theorem c1_temp_dir_never_removed :
    (∀ env : Env, tempDir ∈ (mainGI env).fs) ∧
    (mainGI envNoIcon).exitCode = 1 ∧
    (mainGI envNoIcon).fs.contains tempDir = true ∧
    (mainGI envNoIcon).cleanupLogged = false ∧
    (mainGI envMacSquircle).exitCode = 0 ∧
    (mainGI envMacSquircle).cleanupLogged = true ∧
    (mainGI envMacSquircle).fs.contains tempDir = true ∧
    (mainOra envMacSquircle).exitCode = 0 ∧
    (mainOra envMacSquircle).fs.contains tempDir = false ∧
    (mainOra envNoIcon).exitCode = 1 ∧
    (mainOra envNoIcon).fs.contains tempDir = true := by
  refine ⟨?_, by decide, by decide, by decide, by decide, by decide, by decide,
    by decide, by decide, by decide, by decide⟩
  intro env
  have h := tempDir_mem_runBody env
  unfold mainGI
  cases hr : runBody env with
  | mk s ok =>
    rw [hr] at h
    cases ok <;> simpa using h

/-- Claim C2 counterexample: the claimed margin and tile sizes are
inconsistent with the code.  `Math.floor(1024 * 0.12) = 122`, not `123`, so
the squircle tile of `createMacOSIcon` has edge length `1024 − 2·122 = 780`,
not `1024 − 2·123 = 778`. -/
theorem c2_tile_size_counterexample :
    (createMacOSIcon (some "#171717") true 0.05).outerMargin = 122 ∧
    (createMacOSIcon (some "#171717") true 0.05).tileSize = 780 ∧
    (createMacOSIcon (some "#171717") true 0.05).tileSize ≠ 1024 - 2 * 123 ∧
    (createMacOSIcon (some "#171717") true 0.05).outerMargin ≠ 123 ∧
    (createMacOSIcon (some "#171717") true 0.05).tileSize ≠ 778 := by
  refine ⟨?_, ?_, ?_, ?_, ?_⟩ <;>
    · simp only [createMacOSIcon, targetSize, macosPaddingPercent, cornerRadiusPercent]
      norm_num

/-- Claim C2 (amended): for the macOS run with input `assets/icon.png`,
background `#171717`, squircle shape and no gradient, `createMacOSIcon`
lays out a 1024×1024 canvas with a transparent outer margin of
`floor(1024×0.12) = 122` px per side, a squircle-clipped inner tile of edge
`1024 − 2·122 = 780` px filled with opaque `#171717` behind the resized
icon, and the orchestrator writes exactly one temporary macOS PNG (on a
1024-px canvas) and exits with status 0. -/
theorem c2_macos_icon_scenario :
    (createMacOSIcon (some "#171717") true 0.05).canvasSize = 1024 ∧
    (createMacOSIcon (some "#171717") true 0.05).outerMargin = 122 ∧
    (createMacOSIcon (some "#171717") true 0.05).tileSize = 1024 - 2 * 122 ∧
    (createMacOSIcon (some "#171717") true 0.05).mask = MaskSpec.squircle 780 780 ∧
    (createMacOSIcon (some "#171717") true 0.05).tileFill = some "#171717" ∧
    (createMacOSIcon (some "#171717") true 0.05).iconPadding = 39 ∧
    (createMacOSIcon (some "#171717") true 0.05).iconSize = 702 ∧
    (mainGI envMacSquircle).exitCode = 0 ∧
    (mainGI envMacSquircle).writes.filter (fun wr => wr.1 == tempMacOSIcon)
      = [(tempMacOSIcon, 1024)] := by
  refine ⟨rfl, ?_, ?_, ?_, rfl, ?_, ?_, by decide, by decide⟩ <;>
    · simp only [createMacOSIcon, targetSize, macosPaddingPercent, cornerRadiusPercent]
      norm_num

/-- Claim C3: for every `paddingPercent` p in `[0, 0.3]` and target size
1024, `createPaddedIcon` computes the per-side padding `floor(1024·p)`, the
inner icon edge `1024 − 2·floor(1024·p)` (strictly positive on the whole
range), and composites the resized icon at offset
`(floor(1024·p), floor(1024·p))` on the 1024×1024 canvas. -/
theorem c3_padded_icon_geometry (p : ℚ) (h0 : 0 ≤ p) (h3 : p ≤ 0.3) :
    (createPaddedIcon p).canvasSize = 1024 ∧
    (createPaddedIcon p).paddingSize = ⌊(1024 : ℚ) * p⌋ ∧
    (createPaddedIcon p).iconSize = 1024 - 2 * ⌊(1024 : ℚ) * p⌋ ∧
    0 < (createPaddedIcon p).iconSize ∧
    (createPaddedIcon p).offsetLeft = ⌊(1024 : ℚ) * p⌋ ∧
    (createPaddedIcon p).offsetTop = ⌊(1024 : ℚ) * p⌋ := by
  have hcast : ((targetSize : ℚ)) = (1024 : ℚ) := by norm_num [targetSize]
  have hfloor : ⌊(1024 : ℚ) * p⌋ ≤ 307 := by
    have hle : (1024 : ℚ) * p ≤ 1024 * 0.3 := by nlinarith
    have h2 : (⌊(1024 : ℚ) * p⌋ : ℤ) ≤ ⌊(1024 : ℚ) * 0.3⌋ := Int.floor_le_floor hle
    have h4 : (⌊(1024 : ℚ) * 0.3⌋ : ℤ) = 307 := by norm_num
    omega
  refine ⟨rfl, by simp [createPaddedIcon, hcast], ?_, ?_,
    by simp [createPaddedIcon, hcast], by simp [createPaddedIcon, hcast]⟩
  · show targetSize - ⌊(targetSize : ℚ) * p⌋ * 2 = 1024 - 2 * ⌊(1024 : ℚ) * p⌋
    rw [hcast]
    show (1024 : ℤ) - ⌊(1024 : ℚ) * p⌋ * 2 = 1024 - 2 * ⌊(1024 : ℚ) * p⌋
    ring
  · show 0 < targetSize - ⌊(targetSize : ℚ) * p⌋ * 2
    rw [hcast]
    show (0 : ℤ) < 1024 - ⌊(1024 : ℚ) * p⌋ * 2
    omega

/-- Witness for claim C3 at `p = 1/4`. -/
theorem c3_padded_icon_geometry_witness :
    (0 : ℚ) ≤ 1 / 4 ∧ (1 / 4 : ℚ) ≤ 0.3 ∧
    0 < (createPaddedIcon (1 / 4)).iconSize ∧
    (createPaddedIcon (1 / 4)).paddingSize = ⌊(1024 : ℚ) * (1 / 4)⌋ :=
  ⟨by norm_num, by norm_num,
    (c3_padded_icon_geometry (1 / 4) (by norm_num) (by norm_num)).2.2.2.1,
    (c3_padded_icon_geometry (1 / 4) (by norm_num) (by norm_num)).2.1⟩

/-- Claim C4: `getGradientVariants` deterministically selects exactly one of
three brightness bands — brightness < 0.3: variantA = lighten 0.20 /
rotate +20°, variantB = lighten 0.08 / rotate −20°; brightness ≥ 1.0:
variantA = darken 0.15 / rotate +20°, variantB = darken 0.30 / rotate −20°;
otherwise variantA = lighten 0.08 / rotate +20°, variantB = darken 0.08 /
rotate −20° — and `#171717` takes the dark branch, `#FFFFFF` the light
branch and `#808080` the mid-range branch. -/
theorem c4_gradient_variant_bands (c : RGB) :
    (colordBrightness c < 0.3 →
      getGradientVariants c =
        (⟨LightnessAdjust.lighten 0.2, 20⟩, ⟨LightnessAdjust.lighten 0.08, -20⟩)) ∧
    (1 ≤ colordBrightness c →
      getGradientVariants c =
        (⟨LightnessAdjust.darken 0.15, 20⟩, ⟨LightnessAdjust.darken 0.3, -20⟩)) ∧
    (0.3 ≤ colordBrightness c → colordBrightness c < 1 →
      getGradientVariants c =
        (⟨LightnessAdjust.lighten 0.08, 20⟩, ⟨LightnessAdjust.darken 0.08, -20⟩)) ∧
    colordBrightness ⟨23, 23, 23⟩ < 0.3 ∧
    getGradientVariants ⟨23, 23, 23⟩ =
      (⟨LightnessAdjust.lighten 0.2, 20⟩, ⟨LightnessAdjust.lighten 0.08, -20⟩) ∧
    1 ≤ colordBrightness ⟨255, 255, 255⟩ ∧
    getGradientVariants ⟨255, 255, 255⟩ =
      (⟨LightnessAdjust.darken 0.15, 20⟩, ⟨LightnessAdjust.darken 0.3, -20⟩) ∧
    0.3 ≤ colordBrightness ⟨128, 128, 128⟩ ∧
    colordBrightness ⟨128, 128, 128⟩ < 1 ∧
    getGradientVariants ⟨128, 128, 128⟩ =
      (⟨LightnessAdjust.lighten 0.08, 20⟩, ⟨LightnessAdjust.darken 0.08, -20⟩) := by
  refine ⟨?_, ?_, ?_, ?_, ?_, ?_, ?_, ?_, ?_, ?_⟩
  · intro h
    simp only [getGradientVariants]
    rw [if_pos h]
  · intro h
    simp only [getGradientVariants]
    rw [if_neg (by linarith : ¬colordBrightness c < 0.3), if_pos h]
  · intro h03 h1
    simp only [getGradientVariants]
    rw [if_neg (by linarith : ¬colordBrightness c < 0.3),
      if_neg (by linarith : ¬(1 : ℚ) ≤ colordBrightness c)]
  · norm_num [colordBrightness, yiqBrightness, round2]
  · norm_num [getGradientVariants, colordBrightness, yiqBrightness, round2]
  · norm_num [colordBrightness, yiqBrightness, round2]
  · norm_num [getGradientVariants, colordBrightness, yiqBrightness, round2]
  · norm_num [colordBrightness, yiqBrightness, round2]
  · norm_num [colordBrightness, yiqBrightness, round2]
  · norm_num [getGradientVariants, colordBrightness, yiqBrightness, round2]

/-- Witness for claim C4 at the near-black base colour `#171717`
(`rgb(23, 23, 23)`). -/
theorem c4_gradient_variant_bands_witness :
    getGradientVariants ⟨23, 23, 23⟩ =
      (⟨LightnessAdjust.lighten 0.2, 20⟩, ⟨LightnessAdjust.lighten 0.08, -20⟩) :=
  (c4_gradient_variant_bands ⟨23, 23, 23⟩).1
    (by norm_num [colordBrightness, yiqBrightness, round2])

/-- Claim C5: `createSquircle` emits the closed, solid-filled polygon whose
vertices sample the superellipse at the 361 angles `θ_i = (i/360)·2π`,
`i = 0 … 360`, with point
`(w/2 + (w/2)·sign(cos θ_i)·|cos θ_i|^(2/3.7),
  h/2 + (h/2)·sign(sin θ_i)·|sin θ_i|^(2/3.7))`,
and is a pure function: identical `(w, h)` give identical output. -/
theorem c5_squircle_sampling (w h : ℝ) (hw : 0 < w) (hh : 0 < h) :
    (createSquircle w h).points.length = 361 ∧
    (∀ i : ℕ, i ≤ 360 →
      (createSquircle w h).points[i]? = some
        (w / 2 + w / 2 * Real.sign (Real.cos (((i : ℝ) / 360) * (2 * Real.pi))) *
            |Real.cos (((i : ℝ) / 360) * (2 * Real.pi))| ^ ((2 : ℝ) / 3.7),
         h / 2 + h / 2 * Real.sign (Real.sin (((i : ℝ) / 360) * (2 * Real.pi))) *
            |Real.sin (((i : ℝ) / 360) * (2 * Real.pi))| ^ ((2 : ℝ) / 3.7))) ∧
    (createSquircle w h).closed = true ∧
    (createSquircle w h).fill = "white" ∧
    (∀ w2 h2 : ℝ, w2 = w → h2 = h → createSquircle w2 h2 = createSquircle w h) := by
  refine ⟨?_, ?_, rfl, rfl, ?_⟩
  · simp [createSquircle, squircleSteps]
  · intro i hi
    have hilt : i < squircleSteps + 1 := by
      simp only [squircleSteps]
      omega
    have hang : ((i : ℝ) / (squircleSteps : ℝ)) * 2 * Real.pi
        = ((i : ℝ) / 360) * (2 * Real.pi) := by
      have hs : ((squircleSteps : ℕ) : ℝ) = (360 : ℝ) := by
        simp [squircleSteps]
      rw [hs]
      ring
    simp only [createSquircle, List.getElem?_map, List.getElem?_range hilt]
    unfold squirclePoint
    rw [Option.map_some']
    simp only [squircleExponent, hang]
  · intro w2 h2 hw2 hh2
    rw [hw2, hh2]

/-- Witness for claim C5 at the 1024×1024 tile. -/
theorem c5_squircle_sampling_witness :
    (createSquircle 1024 1024).points.length = 361 ∧
    (createSquircle 1024 1024).closed = true :=
  ⟨(c5_squircle_sampling 1024 1024 (by norm_num) (by norm_num)).1,
   (c5_squircle_sampling 1024 1024 (by norm_num) (by norm_num)).2.2.1⟩

/-- Claim C6: restore after backup has directory-merge semantics — every
file of the backup ends with its backed-up content, files absent from the
backup keep their target content, and nothing is deleted (the restored
directory has an entry exactly when the backup or the target has one); in
the concrete scenario, backup `{a, b, c}` restored over `{a(modified), d}`
yields `{a(original), b, c, d}`. -/
theorem c6_backup_restore_merge (b t : Dir) (f : String) :
    (List.lookup f (restoreDir (some b) t) =
      if (List.lookup f b).isSome then List.lookup f b else List.lookup f t) ∧
    ((List.lookup f (restoreDir (some b) t)).isSome
      = ((List.lookup f b).isSome || (List.lookup f t).isSome)) ∧
    List.lookup "a" (restoreDir (some backupScenario) targetScenario) = some "A" ∧
    List.lookup "b" (restoreDir (some backupScenario) targetScenario) = some "B" ∧
    List.lookup "c" (restoreDir (some backupScenario) targetScenario) = some "C" ∧
    List.lookup "d" (restoreDir (some backupScenario) targetScenario) = some "D" := by
  have h1 : List.lookup f (restoreDir (some b) t) =
      if (List.lookup f b).isSome then List.lookup f b else List.lookup f t :=
    lookup_cpSyncDir f b t
  refine ⟨h1, ?_, by rfl, by rfl, by rfl, by rfl⟩
  rw [h1]
  cases hb : List.lookup f b with
  | some v => simp [hb]
  | none => simp [hb]

/-- Claim C7: `findInputIcon` tries `assets/icon.svg`, `assets/icon.png`,
`assets/icon.jpg`, `assets/icon.jpeg` in this order and returns the first
existing path; it throws exactly when none of the four exists, and in the
orchestrator that error aborts the run before any icon generation (no
temporary PNG is written) with exit status 1. -/
theorem c7_find_input_icon_priority (fs : List String) (env : Env) :
    (fs.contains "assets/icon.svg" = true →
      findInputIcon fs = Except.ok "assets/icon.svg") ∧
    (fs.contains "assets/icon.svg" = false → fs.contains "assets/icon.png" = true →
      findInputIcon fs = Except.ok "assets/icon.png") ∧
    (fs.contains "assets/icon.svg" = false → fs.contains "assets/icon.png" = false →
      fs.contains "assets/icon.jpg" = true →
      findInputIcon fs = Except.ok "assets/icon.jpg") ∧
    (fs.contains "assets/icon.svg" = false → fs.contains "assets/icon.png" = false →
      fs.contains "assets/icon.jpg" = false → fs.contains "assets/icon.jpeg" = true →
      findInputIcon fs = Except.ok "assets/icon.jpeg") ∧
    ((∃ e, findInputIcon fs = Except.error e) ↔
      (fs.contains "assets/icon.svg" = false ∧ fs.contains "assets/icon.png" = false ∧
       fs.contains "assets/icon.jpg" = false ∧ fs.contains "assets/icon.jpeg" = false)) ∧
    (env.initialFs.contains "assets/icon.svg" = false →
      env.initialFs.contains "assets/icon.png" = false →
      env.initialFs.contains "assets/icon.jpg" = false →
      env.initialFs.contains "assets/icon.jpeg" = false →
      (mainGI env).exitCode = 1 ∧ (mainGI env).writes = []) := by
  refine ⟨?_, ?_, ?_, ?_, ?_, ?_⟩
  · intro h1
    simp [findInputIcon, findFirstIcon, iconCandidates, mem_of_contains_true h1]
  · intro h1 h2
    simp [findInputIcon, findFirstIcon, iconCandidates,
      not_mem_of_contains_false h1, mem_of_contains_true h2]
  · intro h1 h2 h3
    simp [findInputIcon, findFirstIcon, iconCandidates,
      not_mem_of_contains_false h1, not_mem_of_contains_false h2,
      mem_of_contains_true h3]
  · intro h1 h2 h3 h4
    simp [findInputIcon, findFirstIcon, iconCandidates,
      not_mem_of_contains_false h1, not_mem_of_contains_false h2,
      not_mem_of_contains_false h3, mem_of_contains_true h4]
  · constructor
    · rintro ⟨e, he⟩
      cases h1 : fs.contains "assets/icon.svg" <;>
        cases h2 : fs.contains "assets/icon.png" <;>
        cases h3 : fs.contains "assets/icon.jpg" <;>
        cases h4 : fs.contains "assets/icon.jpeg" <;>
        simp_all [findInputIcon, findFirstIcon, iconCandidates,
          mem_of_contains_true, not_mem_of_contains_false]
    · rintro ⟨h1, h2, h3, h4⟩
      refine ⟨"No input icon found in assets", ?_⟩
      simp [findInputIcon, findFirstIcon, iconCandidates,
        not_mem_of_contains_false h1, not_mem_of_contains_false h2,
        not_mem_of_contains_false h3, not_mem_of_contains_false h4]
  · intro h1 h2 h3 h4
    have hsvg : "assets/icon.svg" ∉ fsAdd (fsAdd env.initialFs assetsDir) tempDir := by
      simp only [mem_fsAdd_iff, assetsDir, tempDir]
      rintro ((hm | hq) | hq)
      · exact not_mem_of_contains_false h1 hm
      · simp at hq
      · simp at hq
    have hpng : "assets/icon.png" ∉ fsAdd (fsAdd env.initialFs assetsDir) tempDir := by
      simp only [mem_fsAdd_iff, assetsDir, tempDir]
      rintro ((hm | hq) | hq)
      · exact not_mem_of_contains_false h2 hm
      · simp at hq
      · simp at hq
    have hjpg : "assets/icon.jpg" ∉ fsAdd (fsAdd env.initialFs assetsDir) tempDir := by
      simp only [mem_fsAdd_iff, assetsDir, tempDir]
      rintro ((hm | hq) | hq)
      · exact not_mem_of_contains_false h3 hm
      · simp at hq
      · simp at hq
    have hjpeg : "assets/icon.jpeg" ∉ fsAdd (fsAdd env.initialFs assetsDir) tempDir := by
      simp only [mem_fsAdd_iff, assetsDir, tempDir]
      rintro ((hm | hq) | hq)
      · exact not_mem_of_contains_false h4 hm
      · simp at hq
      · simp at hq
    have hfind : findInputIcon (runSetup env)
        = Except.error "No input icon found in assets" := by
      simp [runSetup, findInputIcon, findFirstIcon, iconCandidates,
        hsvg, hpng, hjpg, hjpeg]
    constructor <;> simp [mainGI, runBody, hfind]

/-- Witness for claim C7: a file system holding only `assets/icon.png`, and
the no-icon environment aborting with exit status 1 and no writes. -/
theorem c7_find_input_icon_priority_witness :
    findInputIcon ["assets/icon.png"] = Except.ok "assets/icon.png" ∧
    (mainGI envNoIcon).exitCode = 1 ∧ (mainGI envNoIcon).writes = [] := by
  have t := c7_find_input_icon_priority ["assets/icon.png"] envNoIcon
  have habort := t.2.2.2.2.2 (by decide) (by decide) (by decide) (by decide)
  exact ⟨t.2.1 (by decide) (by decide), habort.1, habort.2⟩

/-- Claim C8: the `backupWindowsIcons` snapshot of an existing
`src-tauri/icons` directory contains every file except `icon.macOS.icns`
(deliberately deleted from the snapshot whenever it exists in the source),
so `restoreWindowsIcons` never overwrites the hand-authored
`icon.macOS.icns` of the target. -/
theorem c8_windows_backup_lossy (d t : Dir) (f : String) :
    backupWindowsIcons (some d) = some (windowsSnapshot d) ∧
    (List.lookup f (windowsSnapshot d) =
      if f = macosIcnsFile then none else List.lookup f d) ∧
    List.lookup macosIcnsFile (windowsSnapshot d) = none ∧
    List.lookup macosIcnsFile (restoreWindowsIcons (backupWindowsIcons (some d)) t)
      = List.lookup macosIcnsFile t := by
  have hnone : List.lookup macosIcnsFile (windowsSnapshot d) = none := by
    rw [lookup_windowsSnapshot, if_pos rfl]
  refine ⟨rfl, lookup_windowsSnapshot d f, hnone, ?_⟩
  show List.lookup macosIcnsFile (cpSyncDir (windowsSnapshot d) t)
      = List.lookup macosIcnsFile t
  rw [lookup_cpSyncDir, hnone]
  simp

/-- Claim C9: requesting a gradient without a background colour is silently
ignored — `createBackgroundCanvas` and the canvas selection of
`createIconWithBackground` fall back to the plain canvas with the default
fully transparent colour, identical to `useGradient = false` with no
background colour. -/
theorem c9_gradient_request_ignored (size : ℤ) :
    createBackgroundCanvas size none true = createCanvas size none ∧
    createBackgroundCanvas size none true = createBackgroundCanvas size none false ∧
    createBackgroundCanvas size none true = CanvasSpec.solid size transparentColor ∧
    iconWithBackgroundCanvas none (some true) = iconWithBackgroundCanvas none (some false) ∧
    iconWithBackgroundCanvas none (some true)
      = CanvasSpec.solid targetSize transparentColor :=
  ⟨rfl, rfl, rfl, rfl, rfl⟩

/-- Claim C10: `updateBackgroundColor` rewrites only the text content of the
first `<color name="ic_launcher_background">` element — the file decomposes
as `pre ++ openTag ++ mid ++ closeTag ++ post` with no earlier match inside
`pre`, and the rewritten file is `pre ++ openTag ++ hexColor ++ closeTag ++
post`, every other byte unchanged; with no matching element the file is
rewritten with identical content, and with no file nothing is written. -/
theorem c10_update_background_color (hexColor content : List Char) :
    (findColorElement content = none → replaceColor hexColor content = content) ∧
    (∀ pre mid post, findColorElement content = some (pre, mid, post) →
      content = pre ++ openTagL ++ mid ++ closeTagL ++ post ∧
      replaceColor hexColor content = pre ++ openTagL ++ hexColor ++ closeTagL ++ post ∧
      colorMatchAt content pre.length = true ∧
      (∀ i < pre.length, colorMatchAt content i = false)) ∧
    updateBackgroundColor false content hexColor = WriteResult.noWrite ∧
    (findColorElement content = none →
      updateBackgroundColor true content hexColor = WriteResult.wrote content) := by
  refine ⟨?_, ?_, rfl, ?_⟩
  · intro h
    unfold replaceColor
    rw [h]
  · intro pre mid post h
    obtain ⟨hs, hm, hf⟩ := findColorElement_sound content pre mid post h
    refine ⟨hs, ?_, hm, hf⟩
    unfold replaceColor
    rw [h]
  · intro h
    unfold updateBackgroundColor replaceColor
    rw [h]
    rfl

/-- Witness for claim C10 on a one-element XML file: the `#FFFFFF` content
of the colour element is replaced by `#171717` and the tags survive
byte-for-byte. -/
theorem c10_update_background_color_witness :
    androidXmlSample = [] ++ openTagL ++ "#FFFFFF".toList ++ closeTagL ++ [] ∧
    replaceColor "#171717".toList androidXmlSample
      = [] ++ openTagL ++ "#171717".toList ++ closeTagL ++ [] := by
  have h := (c10_update_background_color "#171717".toList androidXmlSample).2.1 []
    ("#FFFFFF".toList) [] (by decide)
  exact ⟨h.1, h.2.1⟩
